import Mathlib

/-!
Shallow embedding of the data-normalization pipeline in
`backend/data_handler` (duplicate_handler.py, preprocessor.py,
date_handler.py, column_dtypes.py, missing_value_handler.py).

Tables are modelled column-major: an ordered association list of named
columns, each carrying a pandas dtype tag and a list of cells (`none`
stands for NaN/NaT/None).  Rationals stand in for Python floats (no
claim depends on binary floating-point rounding), `Int` for Python
ints, and `Except PyError` models exceptions at the points where the
orchestrator can observe them.
-/

/-- Calendar date, the result of a successful `pd.to_datetime` parse. -/
structure Date where
  year : Nat
  month : Nat
  day : Nat
deriving DecidableEq, Repr

/-- Pandas column dtypes that the pipeline distinguishes. -/
inductive Dtype where
  | dtInt
  | dtFloat
  | dtBool
  | dtObject
  | dtDatetime
deriving DecidableEq, Repr

/-- Scalar cell values. -/
inductive Value where
  | vInt (n : Int)
  | vFloat (q : ℚ)
  | vStr (s : String)
  | vBool (b : Bool)
  | vDate (d : Date)
deriving DecidableEq, Repr

/-- A cell: `none` is NaN/NaT/None. -/
abbrev Cell := Option Value

/-- A pandas Series: dtype tag plus cells. -/
structure Col where
  dtype : Dtype
  vals : List Cell
deriving DecidableEq, Repr

/-- A DataFrame: ordered association list of column name to column. -/
abbrev Table := List (String × Col)

/-- `df[name]`, reading the first column with that name. -/
def getCol : Table → String → Option Col
  | [], _ => none
  | (k, c) :: rest, n => if k = n then some c else getCol rest n

/-- `df[name] = col`: replace the first column with that name, or append
a new column when the name is absent (pandas column assignment). -/
def setCol : Table → String → Col → Table
  | [], n, c => [(n, c)]
  | (k, c0) :: rest, n, c =>
    if k = n then (k, c) :: rest else (k, c0) :: setCol rest n c

/-- Numeric view of a value, where Python treats bools as 0/1. -/
def valToRatQ : Value → Option ℚ
  | .vInt n => some (n : ℚ)
  | .vFloat q => some q
  | .vBool b => some (if b then 1 else 0)
  | _ => none

/-- Python `==` on scalars: numeric values compare across int/float/bool. -/
def pyEq (a b : Value) : Bool :=
  match valToRatQ a, valToRatQ b with
  | some x, some y => decide (x = y)
  | _, _ =>
    match a, b with
    | .vStr s, .vStr t => decide (s = t)
    | .vDate d, .vDate e => decide (d = e)
    | _, _ => false

/-- Cell equality as used by `DataFrame.duplicated`, which treats two
NaNs in the same position as equal. -/
def cellEqNa (a b : Cell) : Bool :=
  match a, b with
  | none, none => true
  | some x, some y => pyEq x y
  | _, _ => false

def cellsEq : List Cell → List Cell → Bool
  | [], [] => true
  | x :: xs, y :: ys => cellEqNa x y && cellsEq xs ys
  | _, _ => false

/-- `len(df)`: the row count (length of the first column). -/
def nRows : Table → Nat
  | [] => 0
  | (_, c) :: _ => c.vals.length

/-- The comparison key of row `i` under an optional column subset
(`df.duplicated(subset=...)`). -/
def rowKey (df : Table) (subset : Option (List String)) (i : Nat) : List Cell :=
  match subset with
  | none => df.map (fun p => p.2.vals.getD i none)
  | some cols => cols.filterMap (fun n => (getCol df n).map (fun c => c.vals.getD i none))

/-- The `keep` argument of `duplicated`/`drop_duplicates`:
`'first'`, `'last'` or Python `False`. -/
inductive Keep where
  | first
  | last
  | falseK
deriving DecidableEq, Repr

/-- `df.duplicated(subset, keep)` at row `i`. -/
def dupFlag (df : Table) (subset : Option (List String)) (keep : Keep) (i : Nat) : Bool :=
  let n := nRows df
  let key := rowKey df subset i
  match keep with
  | .first => (List.range i).any (fun j => cellsEq (rowKey df subset j) key)
  | .last => (List.range n).any (fun j => decide (i < j) && cellsEq (rowKey df subset j) key)
  | .falseK => (List.range n).any (fun j => decide (j ≠ i) && cellsEq (rowKey df subset j) key)

def duplicatedFlags (df : Table) (subset : Option (List String)) (keep : Keep) : List Bool :=
  (List.range (nRows df)).map (dupFlag df subset keep)

/-- `df.duplicated(subset=subset, keep=keep).any()` (duplicate_handler.py line 20). -/
def anyDuplicated (df : Table) (subset : Option (List String)) (keep : Keep) : Bool :=
  (duplicatedFlags df subset keep).any id

/-- Keep the rows whose mask entry is `true`. -/
def filterRows (mask : List Bool) (c : Col) : Col :=
  ⟨c.dtype, ((mask.zip c.vals).filter (fun p => p.1)).map Prod.snd⟩

/-- `df.drop_duplicates(subset=subset, keep=keep)`. -/
def dropDupRows (df : Table) (subset : Option (List String)) (keep : Keep) : Table :=
  let keepMask := (duplicatedFlags df subset keep).map (fun b => !b)
  df.map (fun p => (p.1, filterRows keepMask p.2))

/-- duplicate_handler.py `handle_duplicates(df, case, subset, keep, inplace)`.
`inplace` only controls in-place mutation in pandas; the returned value is the
same either way, so the flag does not influence the result here. -/
def handle_duplicates (df : Table) (case_ : String) (subset : Option (List String))
    (keep : Keep) (inplace : Bool) : Table :=
  if anyDuplicated df subset keep = false then df
  else if case_ = "remove" then dropDupRows df subset keep
  else if case_ = "mark" then
    setCol df "is_duplicate"
      ⟨.dtBool, (duplicatedFlags df subset keep).map (fun b => some (.vBool b))⟩
  else if case_ = "keep_last" then dropDupRows df subset .last
  else df

/-! ### date_handler.py -/

/-- Clamp a (possibly negative) Python index into `[0, len]`. -/
def pyIdx (len : Nat) (i : Int) : Nat :=
  let j : Int := if i < 0 then i + len else i
  if j < 0 then 0 else if j > (len : Int) then len else j.toNat

/-- Python string slice `s[a:b]` (`none` for an omitted bound). -/
def pySlice (s : String) (a b : Option Int) : String :=
  let cs := s.toList
  let len := cs.length
  let lo := match a with | none => 0 | some i => pyIdx len i
  let hi := match b with | none => len | some i => pyIdx len i
  ⟨(cs.drop lo).take (hi - lo)⟩

/-- Python `str.zfill(w)` for non-negative content: left-pad with zeros. -/
def zfill (w : Nat) (s : String) : String :=
  if s.length ≥ w then s else ⟨List.replicate (w - s.length) '0'⟩ ++ s

/-- Python truthiness `a or b` on strings: `a` unless it is empty. -/
def pyOr (a b : String) : String := if a = "" then b else a

/-- date_handler.py lines 37-45: the f-string each `CUSTOM_DATE_FORMATS`
lambda builds before handing it to `pd.to_datetime(..., format="%Y-%m-%d")`. -/
def customBuild (code : String) (x : String) : String :=
  if code = "XMYYYY" then
    pySlice x (some (-4)) none ++ "-" ++ zfill 2 (pySlice x none (some (-4))) ++ "-28"
  else if code = "XDXMYYYY" then
    pySlice x (some (-4)) none ++ "-" ++ zfill 2 (pySlice x (some (-5)) (some (-4))) ++ "-" ++
      pyOr (zfill 2 (pySlice x none (some (-5)))) "28"
  else if code = "XMXDYYYY" then
    pySlice x (some (-4)) none ++ "-" ++ zfill 2 (pySlice x none (some (-5))) ++ "-" ++
      pyOr (zfill 2 (pySlice x (some (-5)) (some (-4)))) "28"
  else if code = "DDMMYY" then
    "20" ++ pySlice x (some (-2)) none ++ "-" ++ pySlice x (some 2) (some 4) ++ "-" ++
      pyOr (pySlice x none (some 2)) "28"
  else if code = "MMDDYY" then
    "20" ++ pySlice x (some (-2)) none ++ "-" ++ pySlice x none (some 2) ++ "-" ++
      pyOr (pySlice x (some 2) (some 4)) "28"
  else if code = "XDXMYY" then
    "20" ++ pySlice x (some (-2)) none ++ "-" ++ zfill 2 (pySlice x (some (-3)) (some (-2))) ++ "-" ++
      pyOr (zfill 2 (pySlice x none (some (-3)))) "28"
  else if code = "XMXDYY" then
    "20" ++ pySlice x (some (-2)) none ++ "-" ++ zfill 2 (pySlice x none (some (-3))) ++ "-" ++
      pyOr (zfill 2 (pySlice x (some (-3)) (some (-2)))) "28"
  else ""

/-- The keys of `CUSTOM_DATE_FORMATS`. -/
def customCodes : List String :=
  ["XMYYYY", "XDXMYYYY", "XMXDYYYY", "DDMMYY", "MMDDYY", "XDXMYY", "XMXDYY"]

/-- date_handler.py lines 9-34: `STOCK_DATE_FORMATS`. -/
def STOCK_DATE_FORMATS : List String :=
  ["ISO8601", "%Y-%m-%d", "%Y%m%d", "%m/%d/%Y", "%m-%d-%Y", "%m.%d.%Y",
   "%b %d, %Y", "%B %d, %Y", "%d/%m/%Y", "%d-%m-%Y", "%d.%m.%Y",
   "%d %b %Y", "%d %B %Y", "%Y/%m/%d", "%Y.%m.%d",
   "%Y-%m-%d %H:%M:%S", "%Y-%m-%d %H:%M:%S.%f",
   "%Y-%m-%dT%H:%M:%S", "%Y-%m-%dT%H:%M:%S.%f",
   "%y-%m-%d", "%d/%m/%y", "%m/%d/%y", "%b-%d-%Y", "%B-%d-%Y"]

/-! A small model of CPython `strptime` (which backs
`pd.to_datetime(..., format=...)`, with `exact=True`): each directive is
matched by the regular expression CPython's `TimeRE` assigns to it, the
whole input must be consumed, and the resulting fields must form a valid
calendar date (`datetime` constructor). -/

def digitVal (c : Char) : Nat := c.toNat - 48

/-- Match exactly `n` digits. -/
def takeNDigits : Nat → List Char → Option (Nat × List Char)
  | 0, cs => some (0, cs)
  | _ + 1, [] => none
  | n + 1, c :: cs =>
    if c.isDigit then
      match takeNDigits n cs with
      | some (v, rest) => some (digitVal c * 10 ^ n + v, rest)
      | none => none
    else none

/-- `%m`: regex `1[0-2] | 0[1-9] | [1-9]`. -/
def matchMonthNum : List Char → Option (Nat × List Char)
  | [] => none
  | c1 :: rest1 =>
    match rest1 with
    | c2 :: rest2 =>
      if c1 = '1' ∧ '0' ≤ c2 ∧ c2 ≤ '2' then some (10 + digitVal c2, rest2)
      else if c1 = '0' ∧ '1' ≤ c2 ∧ c2 ≤ '9' then some (digitVal c2, rest2)
      else if '1' ≤ c1 ∧ c1 ≤ '9' then some (digitVal c1, rest1)
      else none
    | [] => if '1' ≤ c1 ∧ c1 ≤ '9' then some (digitVal c1, []) else none

/-- `%d`: regex `3[01] | [12]\d | 0[1-9] | [1-9]`. -/
def matchDayNum : List Char → Option (Nat × List Char)
  | [] => none
  | c1 :: rest1 =>
    match rest1 with
    | c2 :: rest2 =>
      if c1 = '3' ∧ ('0' ≤ c2 ∧ c2 ≤ '1') then some (30 + digitVal c2, rest2)
      else if ('1' ≤ c1 ∧ c1 ≤ '2') ∧ c2.isDigit then some (10 * digitVal c1 + digitVal c2, rest2)
      else if c1 = '0' ∧ '1' ≤ c2 ∧ c2 ≤ '9' then some (digitVal c2, rest2)
      else if '1' ≤ c1 ∧ c1 ≤ '9' then some (digitVal c1, rest1)
      else none
    | [] => if '1' ≤ c1 ∧ c1 ≤ '9' then some (digitVal c1, []) else none

/-- `%H`: regex `2[0-3] | [0-1]\d | \d`. -/
def matchHourNum : List Char → Option (Nat × List Char)
  | [] => none
  | c1 :: rest1 =>
    match rest1 with
    | c2 :: rest2 =>
      if c1 = '2' ∧ ('0' ≤ c2 ∧ c2 ≤ '3') then some (20 + digitVal c2, rest2)
      else if ('0' ≤ c1 ∧ c1 ≤ '1') ∧ c2.isDigit then some (10 * digitVal c1 + digitVal c2, rest2)
      else if c1.isDigit then some (digitVal c1, rest1)
      else none
    | [] => if c1.isDigit then some (digitVal c1, []) else none

/-- `%M` and `%S`: regex `[0-5]\d | \d`. -/
def matchMinSecNum : List Char → Option (Nat × List Char)
  | [] => none
  | c1 :: rest1 =>
    match rest1 with
    | c2 :: rest2 =>
      if ('0' ≤ c1 ∧ c1 ≤ '5') ∧ c2.isDigit then some (10 * digitVal c1 + digitVal c2, rest2)
      else if c1.isDigit then some (digitVal c1, rest1)
      else none
    | [] => if c1.isDigit then some (digitVal c1, []) else none

/-- `%f`: regex `\d{1,6}`, greedy. -/
def matchMicro : List Char → Option (List Char) := fun cs =>
  match cs with
  | c :: _ =>
    if c.isDigit then
      some ((cs.drop (min 6 (cs.takeWhile Char.isDigit).length)))
    else none
  | [] => none

def lcChar (c : Char) : Char :=
  if 'A' ≤ c ∧ c ≤ 'Z' then Char.ofNat (c.toNat + 32) else c

/-- Case-insensitive keyword match returning the remaining input. -/
def matchKeyword : List Char → List Char → Option (List Char)
  | [], cs => some cs
  | _ :: _, [] => none
  | k :: ks, c :: cs => if lcChar c = k then matchKeyword ks cs else none

def monthAbbrs : List String :=
  ["jan", "feb", "mar", "apr", "may", "jun", "jul", "aug", "sep", "oct", "nov", "dec"]

def monthFulls : List String :=
  ["january", "february", "march", "april", "may", "june", "july", "august",
   "september", "october", "november", "december"]

def matchMonthName : List String → Nat → List Char → Option (Nat × List Char)
  | [], _, _ => none
  | nm :: rest, i, cs =>
    match matchKeyword nm.toList cs with
    | some r => some (i, r)
    | none => matchMonthName rest (i + 1) cs

/-- Fields accumulated while running a format. -/
structure PDate where
  y : Option Nat
  m : Option Nat
  d : Option Nat
deriving DecidableEq, Repr

/-- Run a strptime format over the input (exact match: the input must be
fully consumed).  Time-of-day directives are matched and discarded, since
only the date part survives `strftime("%Y-%m-%d")`. -/
def runFmt : List Char → List Char → PDate → Option PDate
  | [], [], st => some st
  | [], _ :: _, _ => none
  | '%' :: f :: fmtRest, cs, st =>
    if f = 'Y' then
      match takeNDigits 4 cs with
      | some (v, rest) => runFmt fmtRest rest { st with y := some v }
      | none => none
    else if f = 'y' then
      match takeNDigits 2 cs with
      | some (v, rest) =>
        runFmt fmtRest rest { st with y := some (if v ≤ 68 then 2000 + v else 1900 + v) }
      | none => none
    else if f = 'm' then
      match matchMonthNum cs with
      | some (v, rest) => runFmt fmtRest rest { st with m := some v }
      | none => none
    else if f = 'd' then
      match matchDayNum cs with
      | some (v, rest) => runFmt fmtRest rest { st with d := some v }
      | none => none
    else if f = 'b' then
      match matchMonthName monthAbbrs 1 cs with
      | some (v, rest) => runFmt fmtRest rest { st with m := some v }
      | none => none
    else if f = 'B' then
      match matchMonthName monthFulls 1 cs with
      | some (v, rest) => runFmt fmtRest rest { st with m := some v }
      | none => none
    else if f = 'H' then
      match matchHourNum cs with
      | some (_, rest) => runFmt fmtRest rest st
      | none => none
    else if f = 'M' ∨ f = 'S' then
      match matchMinSecNum cs with
      | some (_, rest) => runFmt fmtRest rest st
      | none => none
    else if f = 'f' then
      match matchMicro cs with
      | some rest => runFmt fmtRest rest st
      | none => none
    else if f = '%' then
      match cs with
      | c :: rest => if c = '%' then runFmt fmtRest rest st else none
      | [] => none
    else none
  | l :: fmtRest, c :: cs, st => if l = c then runFmt fmtRest cs st else none
  | _ :: _, [], _ => none

def isLeap (y : Nat) : Bool := (y % 4 = 0 && y % 100 ≠ 0) || y % 400 = 0

def daysInMonth (y m : Nat) : Nat :=
  if m = 2 then (if isLeap y then 29 else 28)
  else if m = 4 ∨ m = 6 ∨ m = 9 ∨ m = 11 then 30
  else 31

/-- The `datetime` constructor's validity check. -/
def mkValidDate (y m d : Nat) : Option Date :=
  if 1 ≤ y ∧ y ≤ 9999 ∧ 1 ≤ m ∧ m ≤ 12 ∧ 1 ≤ d ∧ d ≤ daysInMonth y m then
    some ⟨y, m, d⟩
  else none

/-- `datetime.strptime(s, fmt)` restricted to the date fields
(defaults: year 1900, month 1, day 1). -/
def strptimeDate (fmt s : String) : Option Date :=
  match runFmt fmt.toList s.toList ⟨none, none, none⟩ with
  | none => none
  | some st => mkValidDate (st.y.getD 1900) (st.m.getD 1) (st.d.getD 1)

/-- Pandas `format="ISO8601"` auto-detection, modelled for the common
forms `YYYY-MM-DD`, optionally followed by `T` or a space and
`HH:MM:SS` with an optional fractional part. -/
def parseISO8601 (s : String) : Option Date :=
  match takeNDigits 4 s.toList with
  | none => none
  | some (y, rest1) =>
    match rest1 with
    | '-' :: rest2 =>
      match takeNDigits 2 rest2 with
      | none => none
      | some (m, rest3) =>
        match rest3 with
        | '-' :: rest4 =>
          match takeNDigits 2 rest4 with
          | none => none
          | some (d, rest5) =>
            match rest5 with
            | [] => mkValidDate y m d
            | sep :: rest6 =>
              if sep = 'T' ∨ sep = ' ' then
                match runFmt "%H:%M:%S".toList (rest6.takeWhile (fun c => c ≠ '.')) ⟨none, none, none⟩ with
                | some _ =>
                  match rest6.dropWhile (fun c => c ≠ '.') with
                  | [] => mkValidDate y m d
                  | '.' :: frac =>
                    if frac ≠ [] ∧ frac.all Char.isDigit ∧ frac.length ≤ 6 then
                      mkValidDate y m d
                    else none
                  | _ => none
                | none => none
              else none
        | _ => none
    | _ => none

/-- `DESIRED_DATE_FORMAT = "%Y-%m-%d"` rendering of a parsed date. -/
def padNum (w : Nat) (n : Nat) : String := zfill w (toString n)

def renderDate (d : Date) : String :=
  padNum 4 d.year ++ "-" ++ padNum 2 d.month ++ "-" ++ padNum 2 d.day

/-- Python `str(v)`.  The rendering of non-integral floats is a
modelling approximation; no pipeline path in the claims stringifies
such a value. -/
def pyStr : Value → String
  | .vStr s => s
  | .vInt n => toString n
  | .vBool b => if b then "True" else "False"
  | .vFloat q => if q.den = 1 then toString q.num ++ ".0" else toString q
  | .vDate d => renderDate d

/-- date_handler.py lines 47-64 `strip_separators`: NA is preserved,
any other value is stringified and every configured separator character
removed.  (The configured separators are single characters, per the
configuration schema, so `str.replace(sep, "")` is character removal.) -/
def stripCell (seps : List Char) : Cell → Cell
  | none => none
  | some v => some (.vStr ⟨(pyStr v).toList.filter (fun c => !(seps.contains c))⟩)

def stripCol (seps : List Char) (c : Col) : Col :=
  ⟨.dtObject, c.vals.map (stripCell seps)⟩

/-- All-or-nothing cell map: models a vectorized pandas operation that
raises (and assigns nothing) as soon as one element fails. -/
def mapOrNone (f : Cell → Option Cell) : List Cell → Option (List Cell)
  | [] => some []
  | c :: cs =>
    match f c with
    | none => none
    | some c' => (mapOrNone f cs).map (fun rest => c' :: rest)

/-- The string `pd.to_datetime` sees for one cell: NA stays NaT, strings
parse as themselves, ints as their decimal rendering; any other element
type makes the vectorized parse raise. -/
def parseCellStock (fmt : String) : Cell → Option Cell
  | none => some none
  | some (.vStr s) =>
    (if fmt = "ISO8601" then parseISO8601 s else strptimeDate fmt s).map (fun d => some (.vDate d))
  | some (.vInt n) =>
    (if fmt = "ISO8601" then parseISO8601 (toString n) else strptimeDate fmt (toString n)).map
      (fun d => some (.vDate d))
  | some _ => none

/-- `pd.to_datetime(df[col], format=fmt)` (date_handler.py line 89):
succeeds only if every cell parses. -/
def parseColStock (fmt : String) (c : Col) : Option Col :=
  (mapOrNone (parseCellStock fmt) c.vals).map (fun vs => ⟨.dtDatetime, vs⟩)

/-- The `CUSTOM_DATE_FORMATS` lambda for `code`:
`pd.to_datetime(customBuild code x, format="%Y-%m-%d")`. -/
def customParse (code : String) (x : String) : Option Date :=
  strptimeDate "%Y-%m-%d" (customBuild code x)

/-- `df[col].apply(CUSTOM_DATE_FORMATS[code])` (date_handler.py line 103):
the lambda subscripts its argument, so an NA (float) or non-string cell
raises and the whole `apply` fails. -/
def applyCustomCol (code : String) (c : Col) : Option Col :=
  (mapOrNone (fun cell =>
    match cell with
    | some (.vStr s) => (customParse code s).map (fun d => some (.vDate d))
    | _ => none) c.vals).map (fun vs => ⟨.dtDatetime, vs⟩)

/-- `series.dt.strftime("%Y-%m-%d")` (lines 90 and 104): NaT renders to
NaN, parsed dates to canonical strings. -/
def strftimeCol (c : Col) : Col :=
  ⟨.dtObject, c.vals.map (fun cell =>
    match cell with
    | some (.vDate d) => some (.vStr (renderDate d))
    | _ => none)⟩

/-- One entry of `configuration.data_specific_functions.date_columns`:
`date_format` read with `.get` (so possibly absent), `separator` present
only when the key exists. -/
structure DateColConfig where
  date_format : Option String
  separator : Option (List Char)
deriving DecidableEq, Repr

structure RVEntry where
  column_name : String
  values_to_replace : List Value
  values_to_replace_with : List Value
deriving DecidableEq, Repr

structure MVConfig where
  method : String
  subset : Option (List String)
  drop_all_nulls : Bool
  null_threshold : ℚ
deriving DecidableEq, Repr

/-- The configuration document.  `none` at a path models the key being
absent (a `KeyError` on lookup in the source). -/
structure Config where
  dtype : Option (List (String × String))
  date_columns : Option (List (String × DateColConfig))
  replace_values : Option (List RVEntry)
  missing_values : Option MVConfig
deriving DecidableEq, Repr

/-- One iteration of the `for col_name, col_config in date_columns.items()`
loop (date_handler.py lines 81-114), with its per-column `try/except`:

* unknown `date_format` (or `None`): column untouched;
* stock format: `pd.to_datetime` assigns only if the whole column parses,
  otherwise the exception is caught and the column keeps its raw values;
* custom format: the separator strip (when configured) is assigned first,
  then the custom lambda is applied; a failure in the lambda is caught
  after the strip assignment already happened;
* a missing column raises `KeyError` at `df[col_name]`, caught by the same
  per-column handler. -/
def processDateCol (df : Table) (colName : String) (cc : DateColConfig) : Table :=
  match cc.date_format with
  | none => df
  | some fmt =>
    if STOCK_DATE_FORMATS.contains fmt then
      match getCol df colName with
      | none => df
      | some c =>
        match parseColStock fmt c with
        | none => df
        | some parsed => setCol df colName (strftimeCol parsed)
    else if customCodes.contains fmt then
      let df1 :=
        match cc.separator with
        | none => df
        | some seps =>
          match getCol df colName with
          | none => df
          | some c => setCol df colName (stripCol seps c)
      match getCol df1 colName with
      | none => df1
      | some c1 =>
        match applyCustomCol fmt c1 with
        | none => df1
        | some parsed => setCol df1 colName (strftimeCol parsed)
    else df

/-- The fold of `processDateCol` over the configured date columns. -/
def convertDateFold (dcols : List (String × DateColConfig)) (df : Table) : Table :=
  dcols.foldl (fun d p => processDateCol d p.1 p.2) df

/-- date_handler.py `convert_date_columns`: a missing
`date_columns` configuration path is a `KeyError`, caught and logged with
the table returned unchanged; otherwise every configured column is
processed in order with per-column error isolation. -/
def convert_date_columns (df : Table) (cfg : Config) : Table :=
  match cfg.date_columns with
  | none => df
  | some dcols => convertDateFold dcols df

/-! ### preprocessor.py `replace_values` -/

/-- Exceptions visible at the orchestrator. -/
inductive PyError where
  | keyError (k : String)
  | indexError
  | typeError (msg : String)
deriving DecidableEq, Repr

/-- `series.replace(v, w)`: every cell equal (Python `==`) to `v`
becomes `w`; NA cells are untouched. -/
def replaceCol (c : Col) (v w : Value) : Col :=
  ⟨c.dtype, c.vals.map (fun cell =>
    match cell with
    | some x => if pyEq x v then some w else some x
    | none => none)⟩

/-- preprocessor.py lines 20-36 `replace_values`: reads only
`replace_values[0]`, `values_to_replace[0]` and
`values_to_replace_with[0]`.  A missing configuration key — or a missing
column, which also surfaces as `KeyError` at `df[column_name]` — is
caught and the table returned unchanged; an empty list raises
`IndexError`, which is *not* a `KeyError` and re-raises. -/
def replace_values (df : Table) (cfg : Config) : Except PyError Table :=
  match cfg.replace_values with
  | none => .ok df
  | some [] => .error .indexError
  | some (e :: _) =>
    match e.values_to_replace with
    | [] => .error .indexError
    | v :: _ =>
      match e.values_to_replace_with with
      | [] => .error .indexError
      | w :: _ =>
        match getCol df e.column_name with
        | none => .ok df
        | some c => .ok (setCol df e.column_name (replaceCol c v w))

/-! ### column_dtypes.py -/

/-- Python `int()` on a string: optional sign then digits
(whitespace stripping omitted; the claims never exercise it). -/
def parseNatDigits : List Char → Nat → Option Nat
  | [], acc => some acc
  | c :: cs, acc => if c.isDigit then parseNatDigits cs (acc * 10 + digitVal c) else none

def pyIntOfString (s : String) : Option Int :=
  match s.toList with
  | [] => none
  | '-' :: cs =>
    match cs with
    | [] => none
    | _ => (parseNatDigits cs 0).map (fun n => -(n : Int))
  | '+' :: cs =>
    match cs with
    | [] => none
    | _ => (parseNatDigits cs 0).map (fun n => (n : Int))
  | cs => (parseNatDigits cs 0).map (fun n => (n : Int))

/-- Truncation toward zero, the C-style cast `astype(int)` applies to
floats. -/
def truncRat (q : ℚ) : Int := if 0 ≤ q then q.floor else -((-q).floor)

def valToIntCast : Value → Option Int
  | .vInt n => some n
  | .vFloat q => some (truncRat q)
  | .vBool b => some (if b then 1 else 0)
  | .vStr s => pyIntOfString s
  | .vDate _ => none

/-- Split at the first dot (for Python `float()` on strings). -/
def splitDot : List Char → List Char × Option (List Char)
  | [] => ([], none)
  | '.' :: cs => ([], some cs)
  | c :: cs =>
    let r := splitDot cs
    (c :: r.1, r.2)

def pyFloatOfDigits : List Char → Option ℚ := fun cs =>
  match splitDot cs with
  | (ip, none) => if ip ≠ [] ∧ ip.all Char.isDigit then (parseNatDigits ip 0).map (fun n => (n : ℚ)) else none
  | (ip, some fp) =>
    if (ip ≠ [] ∨ fp ≠ []) ∧ ip.all Char.isDigit ∧ fp.all Char.isDigit then
      match parseNatDigits ip 0, parseNatDigits fp 0 with
      | some i, some f => some ((i : ℚ) + (f : ℚ) / ((10 : ℚ) ^ fp.length))
      | _, _ => none
    else none

def pyFloatOfString (s : String) : Option ℚ :=
  match s.toList with
  | '-' :: cs => (pyFloatOfDigits cs).map (fun q => -q)
  | '+' :: cs => pyFloatOfDigits cs
  | cs => pyFloatOfDigits cs

def valToFloatCast : Value → Option ℚ
  | .vInt n => some (n : ℚ)
  | .vFloat q => some q
  | .vBool b => some (if b then 1 else 0)
  | .vStr s => pyFloatOfString s
  | .vDate _ => none

def pyStrCell : Cell → String
  | none => "nan"
  | some v => pyStr v

/-- `series.astype(ty)` for the target type identifiers the pipeline
uses.  `int` cannot represent NA (raises); `float` keeps NA as NaN;
`str` stringifies everything including NaN.  Other identifiers are not
modelled and fail, which in the source is one more caught per-column
exception. -/
def castCol (c : Col) (ty : String) : Option Col :=
  if ty = "int" then
    (mapOrNone (fun cell =>
      match cell with
      | none => none
      | some v => (valToIntCast v).map (fun n => some (.vInt n))) c.vals).map
      (fun vs => ⟨.dtInt, vs⟩)
  else if ty = "float" then
    (mapOrNone (fun cell =>
      match cell with
      | none => some none
      | some v => (valToFloatCast v).map (fun q => some (.vFloat q))) c.vals).map
      (fun vs => ⟨.dtFloat, vs⟩)
  else if ty = "str" then
    some ⟨.dtObject, c.vals.map (fun cell => some (.vStr (pyStrCell cell)))⟩
  else none

/-- `df.astype(dtype_map)` (column_dtypes.py line 28): a single bulk
cast that fails — missing column or failing cast — as a whole. -/
def astypeBulk (df : Table) : List (String × String) → Option Table
  | [] => some df
  | (n, ty) :: rest =>
    match getCol df n with
    | none => none
    | some c =>
      match castCol c ty with
      | none => none
      | some c' => astypeBulk (setCol df n c') rest

/-- column_dtypes.py lines 34-39: the per-column fallback; each failure
(missing column or failed cast) is caught and that column left as-is. -/
def astypePerCol (df : Table) : List (String × String) → Table
  | [] => df
  | (n, ty) :: rest =>
    let df' :=
      match getCol df n with
      | none => df
      | some c =>
        match castCol c ty with
        | none => df
        | some c' => setCol df n c'
    astypePerCol df' rest

/-- column_dtypes.py `convert_columns_dtype`: missing `dtype` path is a
`KeyError` caught before date conversion runs; otherwise dates are
normalized first, then bulk cast with per-column fallback.  With the
structured configuration no other exception can reach the re-raising
outer handler, so the function is total. -/
def convert_columns_dtype (df : Table) (cfg : Config) : Table :=
  match cfg.dtype with
  | none => df
  | some m =>
    let df1 := convert_date_columns df cfg
    match astypeBulk df1 m with
    | some df2 => df2
    | none => astypePerCol df1 m

/-! ### missing_value_handler.py -/

/-- Python `series.dtype == s` for the strings the source compares
against: `np.dtype('int64') == 'int'` holds (64-bit platform), while
`'number'` is not a valid dtype string, so numpy's equality returns
`False` for every dtype rather than raising. -/
def dtypeEqStr : Dtype → String → Bool
  | .dtInt, "int" => true
  | .dtFloat, "float" => true
  | _, _ => false

/-- Python `round`: nearest integer, ties to even. -/
def pyRound (q : ℚ) : Int :=
  let f := q.floor
  let r := q - (f : ℚ)
  if r < 1 / 2 then f
  else if (1 : ℚ) / 2 < r then f + 1
  else if f % 2 = 0 then f else f + 1

def numericCells (c : Col) : List ℚ :=
  c.vals.filterMap (fun cell => cell.bind valToRatQ)

/-- `series.mean()`: NaN-skipping mean, NaN (`none`) when no values. -/
def colMean (c : Col) : Option ℚ :=
  let xs := numericCells c
  if xs.length = 0 then none else some (xs.sum / (xs.length : ℚ))

def insertSorted (x : ℚ) : List ℚ → List ℚ
  | [] => [x]
  | y :: ys => if x ≤ y then x :: y :: ys else y :: insertSorted x ys

def sortRat (xs : List ℚ) : List ℚ := xs.foldr insertSorted []

/-- `series.median()`: NaN-skipping; mean of the two middle elements
for even counts. -/
def colMedian (c : Col) : Option ℚ :=
  let xs := sortRat (numericCells c)
  let n := xs.length
  if n = 0 then none
  else if n % 2 = 1 then some (xs.getD (n / 2) 0)
  else some ((xs.getD (n / 2 - 1) 0 + xs.getD (n / 2) 0) / 2)

/-- `series.fillna(v)`. -/
def fillna (c : Col) (v : Value) : Col :=
  ⟨c.dtype, c.vals.map (fun cell =>
    match cell with
    | none => some v
    | some x => some x)⟩

def ffillCells : Cell → List Cell → List Cell
  | _, [] => []
  | prev, none :: rest => prev :: ffillCells prev rest
  | _, some v :: rest => some v :: ffillCells (some v) rest

def ffillCol (c : Col) : Col := ⟨c.dtype, ffillCells none c.vals⟩

def bfillCol (c : Col) : Col := ⟨c.dtype, (ffillCells none c.vals.reverse).reverse⟩

def countOcc (xs : List Value) (v : Value) : Nat :=
  (xs.filter (fun x => pyEq x v)).length

def dedupPy : List Value → List Value
  | [] => []
  | x :: xs => x :: (dedupPy xs).filter (fun y => !(pyEq x y))

def valRank : Value → Nat
  | .vBool _ => 0
  | .vInt _ => 1
  | .vFloat _ => 2
  | .vStr _ => 3
  | .vDate _ => 4

def valLe (a b : Value) : Bool :=
  match valToRatQ a, valToRatQ b with
  | some x, some y => decide (x ≤ y)
  | _, _ =>
    match a, b with
    | .vStr s, .vStr t => decide (s ≤ t)
    | _, _ => decide (valRank a ≤ valRank b)

def insertSortedVal (x : Value) : List Value → List Value
  | [] => [x]
  | y :: ys => if valLe x y then x :: y :: ys else y :: insertSortedVal x ys

/-- `series.mode()[0]`: the most frequent non-NA value, smallest first
on ties (mode returns its values sorted); `none` when the series has no
non-NA value, in which case `[0]` raises `IndexError`. -/
def colMode (c : Col) : Option Value :=
  let xs := c.vals.filterMap id
  let cands := dedupPy xs
  match cands with
  | [] => none
  | _ =>
    let mx := (cands.map (countOcc xs)).foldl max 0
    let best := cands.filter (fun v => countOcc xs v = mx)
    (best.foldr insertSortedVal []).head?

/-- Number of NA cells. -/
def countNone (c : Col) : Nat := (c.vals.filter Option.isNone).length

/-- `df.dropna(axis=1, how='all')` (line 41). -/
def dropAllNullCols (df : Table) : Table :=
  df.filter (fun p => !(p.2.vals.all Option.isNone))

/-- Lines 49-51: drop columns whose null percentage strictly exceeds
the threshold.  With zero rows pandas computes NaN percentages and
`NaN > threshold` is false, so nothing drops. -/
def dropNullThreshold (df : Table) (t : ℚ) : Table :=
  let n := nRows df
  df.filter (fun p =>
    !(decide (n ≠ 0) && decide ((100 * (countNone p.2 : ℚ)) / (n : ℚ) > t)))

def numericDtype : Dtype → Bool
  | .dtInt => true
  | .dtFloat => true
  | _ => false

/-- Lines 62-76: one numeric column of the mean/median loop.  The fill
value is the rounded mean only when the column's dtype compares equal to
`'int'`; nothing fills when the statistic is NaN. -/
def meanMedianFillCol (method : String) (df : Table) (n : String) : Table :=
  match getCol df n with
  | none => df
  | some c =>
    if method = "mean" then
      match colMean c with
      | none => df
      | some m =>
        let fv : Value := if dtypeEqStr c.dtype "int" then .vInt (pyRound m) else .vFloat m
        setCol df n (fillna c fv)
    else
      match colMedian c with
      | none => df
      | some m => setCol df n (fillna c (.vFloat m))

/-- Lines 80-85: directional fill of one numeric column. -/
def fillDirCol (method : String) (df : Table) (n : String) : Table :=
  match getCol df n with
  | none => df
  | some c => setCol df n (if method = "ffill" then ffillCol c else bfillCol c)

/-- Line 91, as an `Except` so the raised exceptions are visible:
`df[col]` on a missing column is a `KeyError`; the fill value is the
mean only when `df[col].dtype == 'number'` (never true, see
`dtypeEqStr`), else `mode()[0]`, whose subscript raises `IndexError` on
an all-NA column. -/
def subsetFillColE (df : Table) (n : String) : Except PyError Table :=
  match getCol df n with
  | none => .error (.keyError n)
  | some c =>
    if dtypeEqStr c.dtype "number" then
      match colMean c with
      | some m => .ok (setCol df n (fillna c (.vFloat m)))
      | none => .error (.typeError "mean of empty column")
    else
      match colMode c with
      | some v => .ok (setCol df n (fillna c v))
      | none => .error .indexError

/-- Lines 89-95: the per-column `try/except` around the subset fill
swallows every exception and keeps the column unchanged. -/
def subsetFillCol (df : Table) (n : String) : Table :=
  match subsetFillColE df n with
  | .ok d => d
  | .error _ => df

/-- missing_value_handler.py `handle_missing_values`.  All four
configuration keys are read up front; a missing one raises `KeyError`
into the function-wide `except Exception`, which logs and falls through
to `return df` — this outer handler swallows *every* exception, so the
function never raises.  Steps, each with the source's own guards:
all-null column drop, threshold drop, mean/median fill over numeric
columns, ffill/bfill over numeric columns, then subset fill. -/
def handle_missing_values (df : Table) (cfg : Config) : Table :=
  match cfg.missing_values with
  | none => df
  | some mv =>
    let df1 := if mv.drop_all_nulls then dropAllNullCols df else df
    let df2 := if mv.null_threshold ≠ 0 then dropNullThreshold df1 mv.null_threshold else df1
    let numericCols := (df2.filter (fun p => numericDtype p.2.dtype)).map Prod.fst
    let df3 :=
      if ["mean", "median"].contains mv.method then
        numericCols.foldl (meanMedianFillCol mv.method) df2
      else df2
    let df4 :=
      if ["ffill", "bfill"].contains mv.method then
        numericCols.foldl (fillDirCol mv.method) df3
      else df3
    match mv.subset with
    | none => df4
    | some cols => cols.foldl subsetFillCol df4

/-! ### preprocessor.py `preprocess` -/

/-- preprocessor.py lines 38-74: duplicates are always handled with the
default arguments; the remaining stages run only when a configuration is
given.  `replace_values` is the one stage that can re-raise here (its
`IndexError` on empty configured lists); the date/type stages cannot
raise with a structured configuration, and `handle_missing_values`
catches everything internally. -/
def preprocess (df : Table) (cfg? : Option Config) : Except PyError Table :=
  let df1 := handle_duplicates df "remove" none .first false
  match cfg? with
  | none => .ok df1
  | some cfg =>
    match replace_values df1 cfg with
    | .error e => .error e
    | .ok df2 => .ok (handle_missing_values (convert_columns_dtype df2 cfg) cfg)

/-- What one date-column iteration does to the column it names,
expressed as a function of that column's previous state. -/
def processColOpt (cOpt : Option Col) (cc : DateColConfig) : Option Col :=
  match cc.date_format with
  | none => cOpt
  | some fmt =>
    if STOCK_DATE_FORMATS.contains fmt then
      match cOpt with
      | none => none
      | some c =>
        match parseColStock fmt c with
        | none => some c
        | some parsed => some (strftimeCol parsed)
    else if customCodes.contains fmt then
      match cOpt with
      | none => none
      | some c =>
        let c1 := match cc.separator with
          | none => c
          | some seps => stripCol seps c
        match applyCustomCol fmt c1 with
        | none => some c1
        | some parsed => some (strftimeCol parsed)
    else cOpt

/-! ### Concrete inputs used by the claim theorems -/

/-- One all-null object column. -/
def dfC1 : Table := [("a", ⟨.dtObject, [none]⟩)]

/-- Missing-value configuration whose subset names the all-null column;
everything else absent. -/
def cfgC1 : Config := ⟨none, none, none, some ⟨"mean", some ["a"], false, 0⟩⟩

def dfC1w : Table := [("a", ⟨.dtObject, [some (.vStr "x")]⟩)]

def cfgC1w : Config := ⟨none, none, some [⟨"a", [.vStr "x"], [.vStr "y"]⟩], none⟩

def dfC1w' : Table := [("a", ⟨.dtObject, [some (.vStr "y")]⟩)]

def colC2 : Col := ⟨.dtObject, [some (.vStr "13|2023")]⟩

def dfC2 : Table := [("d", colC2)]

/-- Custom code `XMYYYY` with separator `|`: the stripped value
`132023` builds month 13, which fails to parse. -/
def cfgC2 : Config := ⟨none, some [("d", ⟨some "XMYYYY", some ['|']⟩)], none, none⟩

/-- The claim's column `[1, 2, null]` of integer origin: pandas stores
it as float64 `[1.0, 2.0, NaN]`, because a numpy integer column cannot
hold NaN. -/
def dfC3 : Table := [("a", ⟨.dtFloat, [some (.vFloat 1), some (.vFloat 2), none]⟩)]

def cfgC3 : Config := ⟨none, none, none, some ⟨"mean", none, false, 0⟩⟩

def dfC4 : Table :=
  [("a", ⟨.dtFloat, [none, some (.vFloat 1), some (.vFloat 2), some (.vFloat 2)]⟩)]

/-- `method="ffill"` (leaves the leading null in place), subset `["a"]`. -/
def cfgC4 : Config := ⟨none, none, none, some ⟨"ffill", some ["a"], false, 0⟩⟩

def dfC5 : Table := [("d", ⟨.dtObject, [some (.vStr "12023")]⟩)]

def cfgC5 : Config := ⟨none, some [("d", ⟨some "XDXMYYYY", none⟩)], none, none⟩

def dfC6 : Table :=
  [("m", ⟨.dtObject, [some (.vStr "122023")]⟩),
   ("dm", ⟨.dtObject, [some (.vStr "3112023")]⟩)]

def cfgC6 : Config :=
  ⟨none, some [("m", ⟨some "XMYYYY", none⟩), ("dm", ⟨some "XDXMYYYY", none⟩)], none, none⟩

def colC7a : Col := ⟨.dtObject, [some (.vStr "1"), some (.vStr "2")]⟩

def colC7b : Col := ⟨.dtObject, [some (.vStr "3"), some (.vStr "x")]⟩

def dfC7 : Table := [("a", colC7a), ("b", colC7b)]

def cfgC7 : Config := ⟨some [("a", "int"), ("b", "int")], none, none, none⟩

def dfC8 : Table := [("a", ⟨.dtInt, [some (.vInt 1), some (.vInt 2)]⟩)]

def colC9x : Col := ⟨.dtObject, [some (.vStr "p"), some (.vStr "q"), some (.vStr "p")]⟩

def dfC9 : Table :=
  [("x", colC9x),
   ("y", ⟨.dtObject, [some (.vStr "p"), some (.vStr "r"), some (.vStr "s")]⟩)]

/-- Two entries and two value pairs are configured; only `p → P` in
column `x` applies. -/
def cfgC9 : Config :=
  ⟨none, none,
   some [⟨"x", [.vStr "p", .vStr "q"], [.vStr "P", .vStr "Q"]⟩,
         ⟨"y", [.vStr "r"], [.vStr "R"]⟩], none⟩

def colC10 : Col := ⟨.dtObject, [some (.vStr "banana"), some (.vStr "2023-01-02")]⟩

def dfC10 : Table := [("d", colC10)]

def cfgC10 : Config := ⟨none, some [("d", ⟨some "%Y-%m-%d", none⟩)], none, none⟩

/-! ### Helper lemmas -/

theorem getCol_setCol_self (df : Table) (n : String) (c : Col) :
    getCol (setCol df n c) n = some c := by
  induction df with
  | nil => simp [setCol, getCol]
  | cons hd tl ih =>
    obtain ⟨k, c0⟩ := hd
    by_cases h : k = n
    · simp [setCol, getCol, h]
    · simp [setCol, getCol, h, ih]

theorem getCol_setCol_ne (df : Table) (n m : String) (c : Col) (h : n ≠ m) :
    getCol (setCol df n c) m = getCol df m := by
  induction df with
  | nil => simp [setCol, getCol, h]
  | cons hd tl ih =>
    obtain ⟨k, c0⟩ := hd
    by_cases hk : k = n
    · subst hk
      simp [setCol, getCol, h]
    · simp [setCol, getCol, hk, ih]

theorem mapOrNone_none_of_mem (f : Cell → Option Cell) (l : List Cell) (x : Cell)
    (hx : x ∈ l) (hfx : f x = none) : mapOrNone f l = none := by
  induction l with
  | nil => cases hx
  | cons y ys ih =>
    rcases List.mem_cons.1 hx with h | h
    · subst h
      simp [mapOrNone, hfx]
    · cases hfy : f y <;> simp [mapOrNone, hfy, ih h]

theorem getCol_processDateCol_self (df : Table) (n : String) (cc : DateColConfig) :
    getCol (processDateCol df n cc) n = processColOpt (getCol df n) cc := by
  unfold processDateCol processColOpt
  cases hf : cc.date_format with
  | none => rfl
  | some fmt =>
    by_cases hs : STOCK_DATE_FORMATS.contains fmt
    · simp only [hs, if_true]
      cases hg : getCol df n with
      | none => simp [hg]
      | some c =>
        cases hp : parseColStock fmt c with
        | none => simp [hg, hp]
        | some parsed => simp [hg, hp, getCol_setCol_self]
    · by_cases hc : customCodes.contains fmt
      · simp only [hs, hc, Bool.false_eq_true, if_false, if_true]
        cases hsep : cc.separator with
        | none =>
          cases hg : getCol df n with
          | none => simp [hg]
          | some c =>
            cases ha : applyCustomCol fmt c with
            | none => simp [hg, ha]
            | some parsed => simp [hg, ha, getCol_setCol_self]
        | some seps =>
          cases hg : getCol df n with
          | none => simp [hg]
          | some c =>
            have h1 : getCol (setCol df n (stripCol seps c)) n = some (stripCol seps c) :=
              getCol_setCol_self df n (stripCol seps c)
            cases ha : applyCustomCol fmt (stripCol seps c) with
            | none => simp [hg, h1, ha]
            | some parsed => simp [hg, h1, ha, getCol_setCol_self]
      · have hs' : ¬ fmt ∈ STOCK_DATE_FORMATS := by simpa using hs
        have hc' : ¬ fmt ∈ customCodes := by simpa using hc
        simp [hs, hc, hs', hc']

theorem getCol_processDateCol_ne (df : Table) (n m : String) (cc : DateColConfig)
    (h : n ≠ m) : getCol (processDateCol df n cc) m = getCol df m := by
  unfold processDateCol
  cases hf : cc.date_format with
  | none => rfl
  | some fmt =>
    by_cases hs : STOCK_DATE_FORMATS.contains fmt
    · simp only [hs, if_true]
      cases hg : getCol df n with
      | none => simp [hg]
      | some c =>
        cases hp : parseColStock fmt c with
        | none => simp [hg, hp]
        | some parsed => simp [hg, hp, getCol_setCol_ne df n m _ h]
    · by_cases hc : customCodes.contains fmt
      · simp only [hs, hc, Bool.false_eq_true, if_false, if_true]
        cases hsep : cc.separator with
        | none =>
          cases hg : getCol df n with
          | none => simp [hg]
          | some c =>
            cases ha : applyCustomCol fmt c with
            | none => simp [hg, ha]
            | some parsed => simp [hg, ha, getCol_setCol_ne df n m _ h]
        | some seps =>
          cases hg : getCol df n with
          | none => simp [hg]
          | some c =>
            have h1 : getCol (setCol df n (stripCol seps c)) n = some (stripCol seps c) :=
              getCol_setCol_self df n (stripCol seps c)
            cases ha : applyCustomCol fmt (stripCol seps c) with
            | none => simp [hg, h1, ha, getCol_setCol_ne df n m _ h]
            | some parsed =>
              simp only [hg, h1, ha]
              rw [getCol_setCol_ne _ n m _ h, getCol_setCol_ne df n m _ h]
      · have hs' : ¬ fmt ∈ STOCK_DATE_FORMATS := by simpa using hs
        have hc' : ¬ fmt ∈ customCodes := by simpa using hc
        simp [hs, hc, hs', hc']

theorem convertDateFold_cons (p : String × DateColConfig)
    (tl : List (String × DateColConfig)) (df : Table) :
    convertDateFold (p :: tl) df = convertDateFold tl (processDateCol df p.1 p.2) := rfl

theorem getCol_convertDateFold_not_mem (dcols : List (String × DateColConfig))
    (df : Table) (m : String) (h : ∀ p ∈ dcols, p.1 ≠ m) :
    getCol (convertDateFold dcols df) m = getCol df m := by
  induction dcols generalizing df with
  | nil => rfl
  | cons hd tl ih =>
    rw [convertDateFold_cons]
    rw [ih _ (fun p hp => h p (List.mem_cons_of_mem hd hp))]
    exact getCol_processDateCol_ne df hd.1 m hd.2 (h hd (List.mem_cons_self hd tl))

theorem getCol_convertDateFold_mem (dcols : List (String × DateColConfig))
    (df : Table) (n : String) (cc : DateColConfig)
    (hnd : (dcols.map Prod.fst).Nodup) (hmem : (n, cc) ∈ dcols) :
    getCol (convertDateFold dcols df) n = processColOpt (getCol df n) cc := by
  induction dcols generalizing df with
  | nil => cases hmem
  | cons hd tl ih =>
    rw [convertDateFold_cons]
    simp only [List.map_cons, List.nodup_cons] at hnd
    rcases List.mem_cons.1 hmem with heq | hmem'
    · subst heq
      have hnotin : ∀ p ∈ tl, p.1 ≠ n := by
        intro p hp hcontra
        have hmm : p.1 ∈ tl.map Prod.fst := List.mem_map_of_mem Prod.fst hp
        rw [hcontra] at hmm
        exact hnd.1 hmm
      rw [getCol_convertDateFold_not_mem tl _ n hnotin]
      exact getCol_processDateCol_self df n cc
    · have hne : hd.1 ≠ n := by
        intro hcontra
        have h1 : n ∈ tl.map Prod.fst := by
          have := List.mem_map_of_mem Prod.fst hmem'
          simpa using this
        exact hnd.1 (hcontra ▸ h1)
      rw [ih _ hnd.2 hmem']
      rw [getCol_processDateCol_ne df hd.1 n hd.2 hne]

/-! ### Claim C1 -/

/-- C1 counterexample: inside the missing-value stage the subset fill
raises an `IndexError` (`mode()[0]` on an all-null column) — a data
error, not a missing-configuration-key error — yet `preprocess` returns
normally with the table unchanged instead of propagating it. -/
theorem C1_counterexample :
    subsetFillColE dfC1 "a" = Except.error PyError.indexError ∧
    preprocess dfC1 (some cfgC1) = Except.ok dfC1 := by
  constructor
  · rfl
  · rfl

/-- C1 (amended): a non-missing-key exception arising in the
value-replacement stage propagates out of `preprocess`, but once that
stage succeeds `preprocess` always returns `ok`: the missing-value
stage catches every exception internally and can never abort the
pipeline. -/
theorem C1_missing_stage_never_aborts (df : Table) (cfg : Config) :
    (∀ e, replace_values (handle_duplicates df "remove" none Keep.first false) cfg =
        Except.error e → preprocess df (some cfg) = Except.error e) ∧
    (∀ d1, replace_values (handle_duplicates df "remove" none Keep.first false) cfg =
        Except.ok d1 →
      preprocess df (some cfg) =
        Except.ok (handle_missing_values (convert_columns_dtype d1 cfg) cfg)) := by
  constructor
  · intro e he
    simp [preprocess, he]
  · intro d1 h1
    simp [preprocess, h1]

/-- Witness for `C1_missing_stage_never_aborts` at a concrete input. -/
theorem C1_missing_stage_never_aborts_witness :
    preprocess dfC1w (some cfgC1w) =
      Except.ok (handle_missing_values (convert_columns_dtype dfC1w' cfgC1w) cfgC1w) :=
  (C1_missing_stage_never_aborts dfC1w cfgC1w).2 dfC1w' (by rfl)

/-! ### Claim C2 -/

/-- C2 counterexample: the parse of the custom-format column fails, yet
the returned column holds the separator-stripped values, not its values
at entry to the stage. -/
theorem C2_counterexample :
    getCol (convert_date_columns dfC2 cfgC2) "d" =
      some ⟨.dtObject, [some (.vStr "132023")]⟩ ∧
    getCol (convert_date_columns dfC2 cfgC2) "d" ≠ getCol dfC2 "d" := by
  constructor
  · decide
  · decide

/-- C2 (amended): a failing column is isolated — the stage completes
and only that column is affected — but on the custom path with a
configured separator the failing column is left holding its
separator-stripped values (the state at the point of failure), not its
entry values. -/
theorem C2_custom_strip_persists (df : Table) (cfg : Config)
    (dcols : List (String × DateColConfig)) (n fmt : String)
    (seps : List Char) (c : Col)
    (hcfg : cfg.date_columns = some dcols)
    (hnd : (dcols.map Prod.fst).Nodup)
    (hmem : (n, ⟨some fmt, some seps⟩) ∈ dcols)
    (hstock : STOCK_DATE_FORMATS.contains fmt = false)
    (hcust : customCodes.contains fmt = true)
    (hc : getCol df n = some c)
    (hfail : applyCustomCol fmt (stripCol seps c) = none) :
    getCol (convert_date_columns df cfg) n = some (stripCol seps c) := by
  have hfold := getCol_convertDateFold_mem dcols df n ⟨some fmt, some seps⟩ hnd hmem
  have hs' : ¬ fmt ∈ STOCK_DATE_FORMATS := by simpa using hstock
  have hc' : fmt ∈ customCodes := by simpa using hcust
  simp [convert_date_columns, hcfg, hfold, processColOpt, hstock, hcust, hs', hc', hc, hfail]

/-- Witness for `C2_custom_strip_persists` at the concrete input of the
counterexample. -/
theorem C2_custom_strip_persists_witness :
    getCol (convert_date_columns dfC2 cfgC2) "d" = some (stripCol ['|'] colC2) :=
  C2_custom_strip_persists dfC2 cfgC2 [("d", ⟨some "XMYYYY", some ['|']⟩)]
    "d" "XMYYYY" ['|'] colC2 rfl (by decide) (by decide) (by decide) (by decide)
    (by decide) (by decide)

/-! ### Claim C3 -/

/-- C3 evaluation at the failing input: with `method="mean"` the null
is filled with the unrounded mean `3/2`, because the rounding guard
`df[col].dtype == 'int'` is false for every column that actually
contains nulls; the claimed rounded fill `2` is not produced. -/
theorem C3_mean_fill_not_rounded :
    handle_missing_values dfC3 cfgC3 =
      [("a", ⟨.dtFloat, [some (.vFloat 1), some (.vFloat 2), some (.vFloat (3 / 2))]⟩)] ∧
    handle_missing_values dfC3 cfgC3 ≠
      [("a", ⟨.dtFloat, [some (.vFloat 1), some (.vFloat 2), some (.vFloat 2)]⟩)] := by
  have hm : colMean ⟨.dtFloat, [some (.vFloat 1), some (.vFloat 2), none]⟩ =
      some (3 / 2 : ℚ) := by
    simp [colMean, numericCells, valToRatQ]
    norm_num
  have hval : handle_missing_values dfC3 cfgC3 =
      [("a", ⟨.dtFloat, [some (.vFloat 1), some (.vFloat 2), some (.vFloat (3 / 2))]⟩)] := by
    simp [handle_missing_values, dfC3, cfgC3, numericDtype, meanMedianFillCol, getCol,
      hm, dtypeEqStr, fillna, setCol]
  refine ⟨hval, ?_⟩
  rw [hval]
  simp only [ne_eq, List.cons.injEq, Prod.mk.injEq, Col.mk.injEq, Option.some.injEq,
    Value.vFloat.injEq, and_true, true_and]
  norm_num

/-! ### Claim C4 -/

/-- C4 evaluation at the failing input: the subset step fills the
numeric column's null with its mode `2`, not its mean `5/3`, because
the guard `df[col].dtype == 'number'` is never true (`'number'` is not
a valid dtype string). -/
theorem C4_subset_fills_mode_not_mean :
    handle_missing_values dfC4 cfgC4 =
      [("a", ⟨.dtFloat,
        [some (.vFloat 2), some (.vFloat 1), some (.vFloat 2), some (.vFloat 2)]⟩)] ∧
    colMean ⟨.dtFloat, [some (.vFloat 1), some (.vFloat 2), some (.vFloat 2)]⟩ =
      some (5 / 3) ∧
    handle_missing_values dfC4 cfgC4 ≠
      [("a", ⟨.dtFloat,
        [some (.vFloat (5 / 3)), some (.vFloat 1), some (.vFloat 2), some (.vFloat 2)]⟩)] := by
  have hval : handle_missing_values dfC4 cfgC4 =
      [("a", ⟨.dtFloat,
        [some (.vFloat 2), some (.vFloat 1), some (.vFloat 2), some (.vFloat 2)]⟩)] := by
    rfl
  have hmean : colMean ⟨.dtFloat, [some (.vFloat 1), some (.vFloat 2), some (.vFloat 2)]⟩ =
      some (5 / 3 : ℚ) := by
    simp [colMean, numericCells, valToRatQ]
    norm_num
  refine ⟨hval, hmean, ?_⟩
  rw [hval]
  simp only [ne_eq, List.cons.injEq, Prod.mk.injEq, Col.mk.injEq, Option.some.injEq,
    Value.vFloat.injEq, and_true, true_and]
  norm_num

/-! ### Claim C5 -/

/-- C5 evaluation at the failing input: for `XDXMYYYY` with an empty
day prefix, `"".zfill(2)` is the truthy `"00"`, so the `or '28'`
default never applies; the lambda builds day `00`, the parse fails, and
the column keeps its raw values — no date with day 28 is produced. -/
theorem C5_day_default_unreachable :
    customBuild "XDXMYYYY" "12023" = "2023-01-00" ∧
    customParse "XDXMYYYY" "12023" = none ∧
    convert_date_columns dfC5 cfgC5 = dfC5 ∧
    customParse "XDXMYYYY" "12023" ≠ some ⟨2023, 1, 28⟩ := by
  refine ⟨by decide, by decide, by decide, by decide⟩

/-! ### Claim C6 -/

/-- C6: `"122023"` under `XMYYYY` normalizes to `"2023-12-28"`, and
`"3112023"` under `XDXMYYYY` to `"2023-01-31"`. -/
theorem C6_custom_format_examples :
    convert_date_columns dfC6 cfgC6 =
      [("m", ⟨.dtObject, [some (.vStr "2023-12-28")]⟩),
       ("dm", ⟨.dtObject, [some (.vStr "2023-01-31")]⟩)] := by
  decide

/-! ### Claim C7 -/

/-- C7: with `dtype={a: int, b: int}` where `a` casts and `b` fails,
the bulk cast fails, the per-column fallback casts `a` and leaves `b`
exactly as it was; `convert_columns_dtype` is a total function, so no
exception reaches the caller. -/
theorem C7_coercion_fallback (df : Table) (a b : String) (ca cb ca' : Col) (cfg : Config)
    (hab : a ≠ b)
    (hcfg : cfg.dtype = some [(a, "int"), (b, "int")])
    (hdate : cfg.date_columns = none)
    (hca : getCol df a = some ca) (hcb : getCol df b = some cb)
    (hcast : castCol ca "int" = some ca')
    (hfail : castCol cb "int" = none) :
    getCol (convert_columns_dtype df cfg) a = some ca' ∧
    getCol (convert_columns_dtype df cfg) b = some cb := by
  have hdf1 : convert_date_columns df cfg = df := by
    simp [convert_date_columns, hdate]
  have hgb : getCol (setCol df a ca') b = some cb := by
    rw [getCol_setCol_ne df a b ca' hab]
    exact hcb
  have hbulk : astypeBulk df [(a, "int"), (b, "int")] = none := by
    simp [astypeBulk, hca, hcast, hgb, hfail]
  have hper : astypePerCol df [(a, "int"), (b, "int")] = setCol df a ca' := by
    simp [astypePerCol, hca, hcast, hgb, hfail]
  refine ⟨?_, ?_⟩
  · simp [convert_columns_dtype, hcfg, hdf1, hbulk, hper, getCol_setCol_self]
  · simp [convert_columns_dtype, hcfg, hdf1, hbulk, hper, hgb]

/-- Witness for `C7_coercion_fallback` at a concrete input. -/
theorem C7_coercion_fallback_witness :
    getCol (convert_columns_dtype dfC7 cfgC7) "a" =
      some ⟨.dtInt, [some (.vInt 1), some (.vInt 2)]⟩ ∧
    getCol (convert_columns_dtype dfC7 cfgC7) "b" = some colC7b :=
  C7_coercion_fallback dfC7 "a" "b" colC7a colC7b
    ⟨.dtInt, [some (.vInt 1), some (.vInt 2)]⟩ cfgC7
    (by decide) rfl rfl (by decide) (by decide) (by decide) (by decide)

/-! ### Claim C8 -/

/-- C8: when `df.duplicated(subset, keep).any()` is false, every policy
— `remove`, `mark`, `keep_last` and anything else — returns the table
unchanged; in particular `mark` adds no `is_duplicate` column. -/
theorem C8_no_duplicate_short_circuit (df : Table) (case_ : String)
    (subset : Option (List String)) (keep : Keep) (inplace : Bool)
    (h : anyDuplicated df subset keep = false) :
    handle_duplicates df case_ subset keep inplace = df := by
  simp [handle_duplicates, h]

/-- Witness for `C8_no_duplicate_short_circuit` with the `mark` policy. -/
theorem C8_no_duplicate_short_circuit_witness :
    handle_duplicates dfC8 "mark" none Keep.first false = dfC8 :=
  C8_no_duplicate_short_circuit dfC8 "mark" none Keep.first false (by decide)

/-! ### Claim C9 -/

/-- C9: only the first `replace_values` entry and its first value pair
are honored — the result does not depend on the remaining entries or
pairs — every matching occurrence in the named column is replaced, and
every other column is untouched. -/
theorem C9_replace_first_entry_only (df : Table) (cfg : Config) (cn : String)
    (v w : Value) (vs ws : List Value) (rest : List RVEntry) (c : Col)
    (hcfg : cfg.replace_values = some (⟨cn, v :: vs, w :: ws⟩ :: rest))
    (hc : getCol df cn = some c) :
    replace_values df cfg = Except.ok (setCol df cn (replaceCol c v w)) ∧
    ∀ m, m ≠ cn → getCol (setCol df cn (replaceCol c v w)) m = getCol df m := by
  constructor
  · simp [replace_values, hcfg, hc]
  · intro m hm
    exact getCol_setCol_ne df cn m _ (fun hh => hm hh.symm)

/-- Witness for `C9_replace_first_entry_only` at a concrete input. -/
theorem C9_replace_first_entry_only_witness :
    replace_values dfC9 cfgC9 =
      Except.ok (setCol dfC9 "x" (replaceCol colC9x (.vStr "p") (.vStr "P"))) :=
  (C9_replace_first_entry_only dfC9 cfgC9 "x" (.vStr "p") (.vStr "P")
    [.vStr "q"] [.vStr "Q"] [⟨"y", [.vStr "r"], [.vStr "R"]⟩] colC9x rfl rfl).1

/-! ### Claim C10 -/

/-- C10: on the stock path the parsed values are assigned only when the
whole column parses; if any cell fails under the configured stock
pattern, the returned table still holds exactly the column's original
raw values. -/
theorem C10_stock_parse_atomic (df : Table) (cfg : Config)
    (dcols : List (String × DateColConfig)) (n fmt : String)
    (sep : Option (List Char)) (c : Col)
    (hcfg : cfg.date_columns = some dcols)
    (hnd : (dcols.map Prod.fst).Nodup)
    (hmem : (n, ⟨some fmt, sep⟩) ∈ dcols)
    (hstock : STOCK_DATE_FORMATS.contains fmt = true)
    (hc : getCol df n = some c)
    (hfail : ∃ cell ∈ c.vals, parseCellStock fmt cell = none) :
    getCol (convert_date_columns df cfg) n = some c := by
  obtain ⟨cell, hcell, hpc⟩ := hfail
  have hp : parseColStock fmt c = none := by
    unfold parseColStock
    rw [mapOrNone_none_of_mem _ _ _ hcell hpc]
    rfl
  have hfold := getCol_convertDateFold_mem dcols df n ⟨some fmt, sep⟩ hnd hmem
  have hs' : fmt ∈ STOCK_DATE_FORMATS := by simpa using hstock
  simp [convert_date_columns, hcfg, hfold, processColOpt, hstock, hs', hc, hp]

/-- Witness for `C10_stock_parse_atomic` at a concrete input whose
first cell does not parse. -/
theorem C10_stock_parse_atomic_witness :
    getCol (convert_date_columns dfC10 cfgC10) "d" = some colC10 :=
  C10_stock_parse_atomic dfC10 cfgC10 [("d", ⟨some "%Y-%m-%d", none⟩)] "d" "%Y-%m-%d"
    none colC10 rfl (by decide) (by decide) (by decide) rfl
    ⟨some (.vStr "banana"), by decide, by decide⟩
